import Mathlib

/-
  Verification of the blendizzard contract (jamesbachini/ohloss).

  Shallow embedding of the epoch/FP/game economic state machine:
  - Player / EpochPlayer / EpochInfo / GameSession data model (types per
    src/contracts/blendizzard/src/storage.rs current formats)
  - storage layer (storage.rs), faction registry (faction.rs), and the
    public entry points (lib.rs)
  - parts of the contract whose modules are absent from the source
    snapshot (game.rs, faction_points.rs, rewards.rs) are modelled from
    the specification and marked as such in their doc comments.

  Addresses, epochs, session ids are Nat; monetary / FP amounts are Int
  (the contract uses i128; none of the verified claims exercises i128
  overflow, which the source checks and fails closed on).
  Soroban storage-TTL extension calls are elided: they do not change
  stored values.  require_auth calls are elided: authorization is not
  part of any claim.
-/

-- ===========================================================================
-- Errors (errors.rs is absent from the snapshot; the closed enumeration is
-- reconstructed from the error names used in lib.rs / faction.rs / storage.rs
-- doc comments and the specification's closed error list)
-- ===========================================================================

inductive Error where
  | AlreadyInitialized
  | NotAdmin
  | InvalidFaction
  | FactionNotSelected
  | PlayerNotFound
  | ContractPaused
  | GameNotWhitelisted
  | SessionAlreadyExists
  | InvalidAmount
  | InsufficientFactionPoints
  | SessionNotFound
  | InvalidSessionState
  | InvalidGameOutcome
  | ProofVerificationFailed
  | EpochNotReady
  | EpochAlreadyFinalized
  | FeeVaultError
  | SwapError
  | EpochNotFinalized
  | RewardAlreadyClaimed
  | NotWinningFaction
  | NoRewardsAvailable
  | OverflowError
  | InsufficientBalance
deriving DecidableEq, Repr

-- ===========================================================================
-- Data model (types.rs is absent; struct shapes are fixed by the code in
-- faction.rs / storage.rs / lib.rs that constructs and reads them)
-- ===========================================================================

/-- Player persistent record, current (V2) format: selected_faction,
time_multiplier_start, last_epoch_balance (storage.rs lines 131-133,
faction.rs lines 46-50). -/
structure Player where
  selected_faction : Nat
  time_multiplier_start : Nat
  last_epoch_balance : Int
deriving DecidableEq, Repr

/-- EpochPlayer record, current (V1) format, without locked_fp
(storage.rs lines 204-207 and the constructions in faction.rs lines 95-100
and storage.rs lines 223-228). -/
structure EpochPlayer where
  epoch_faction : Option Nat
  epoch_balance_snapshot : Int
  available_fp : Int
  total_fp_contributed : Int
deriving DecidableEq, Repr

inductive GameStatus where
  | Pending
  | Settled
deriving DecidableEq, Repr

/-- Game session record (spec section 3: game contract id, both players,
both wagers, status Pending or Settled). -/
structure GameSession where
  game_id : Nat
  player1 : Nat
  player2 : Nat
  player1_wager : Int
  player2_wager : Int
  status : GameStatus
deriving DecidableEq, Repr

/-- Game outcome reported by the whitelisted game contract (shape per the
GameOutcome literals in the test corpus: game_id, session_id, player1,
player2, winner; winner = true means player1 won). -/
structure GameOutcome where
  game_id : Nat
  session_id : Nat
  player1 : Nat
  player2 : Nat
  winner : Bool
deriving DecidableEq, Repr

/-- Epoch metadata (spec section 3: epoch_number, start_time, end_time,
is_finalized, sparse faction_standings map, reward_pool; the winning
faction is recorded at finalization per spec section 4.4). -/
structure EpochInfo where
  epoch_number : Nat
  start_time : Nat
  end_time : Nat
  is_finalized : Bool
  winning_faction : Nat
  faction_standings : List (Nat × Int)
  reward_pool : Int
deriving DecidableEq, Repr

/-- Sparse-map read for faction standings (absent key means 0). -/
def standingsGet : List (Nat × Int) → Nat → Int
  | [], _ => 0
  | (k, v) :: rest, f => if k = f then v else standingsGet rest f

/-- Sparse-map additive update for faction standings (unique keys). -/
def standingsAdd : List (Nat × Int) → Nat → Int → List (Nat × Int)
  | [], f, amt => [(f, amt)]
  | (k, v) :: rest, f, amt =>
      if k = f then (k, v + amt) :: rest else (k, v) :: standingsAdd rest f amt

/-- Contract storage plus the ledger clock and the external vault's
balances (the vault balance is read on demand and treated as ground
truth, spec section 9). Maps follow the DataKey layout of storage.rs:
Paused, CurrentEpoch, Player(a), EpochPlayer(e,a), Epoch(e), Session(id),
Game(a), Claimed(a,e). -/
structure ContractState where
  paused : Bool
  currentEpoch : Nat
  now : Nat
  players : Nat → Option Player
  epochPlayers : Nat → Nat → Option EpochPlayer
  epochs : Nat → Option EpochInfo
  sessions : Nat → Option GameSession
  games : Nat → Bool
  claimed : Nat → Nat → Option Bool
  vaultBalance : Nat → Int

-- ===========================================================================
-- Storage write helpers (storage.rs set_* functions) and lookup lemmas
-- ===========================================================================

def ContractState.withPlayer (s : ContractState) (p : Nat) (v : Player) :
    ContractState :=
  { s with players := fun q => if q = p then some v else s.players q }

def ContractState.withEpochPlayer (s : ContractState) (e p : Nat)
    (v : EpochPlayer) : ContractState :=
  { s with epochPlayers :=
      fun e' p' => if e' = e ∧ p' = p then some v else s.epochPlayers e' p' }

def ContractState.withEpoch (s : ContractState) (e : Nat) (v : EpochInfo) :
    ContractState :=
  { s with epochs := fun e' => if e' = e then some v else s.epochs e' }

def ContractState.withSession (s : ContractState) (sid : Nat)
    (v : GameSession) : ContractState :=
  { s with sessions := fun i => if i = sid then some v else s.sessions i }

/-- storage.rs set_claimed: writes the boolean marker true for (p, e). -/
def set_claimed (s : ContractState) (p e : Nat) : ContractState :=
  { s with claimed :=
      fun p' e' => if p' = p ∧ e' = e then some true else s.claimed p' e' }

/-- storage.rs has_claimed: true only when the stored marker is exactly
Some(true). -/
def has_claimed (s : ContractState) (p e : Nat) : Bool :=
  match s.claimed p e with
  | some true => true
  | _ => false

/-- storage.rs require_not_paused. -/
def require_not_paused (s : ContractState) : Except Error Unit :=
  if s.paused then .error .ContractPaused else .ok ()

@[simp] theorem withPlayer_paused (s : ContractState) (p : Nat) (v : Player) :
    (s.withPlayer p v).paused = s.paused := rfl

@[simp] theorem withPlayer_currentEpoch (s : ContractState) (p : Nat)
    (v : Player) : (s.withPlayer p v).currentEpoch = s.currentEpoch := rfl

@[simp] theorem withPlayer_now (s : ContractState) (p : Nat) (v : Player) :
    (s.withPlayer p v).now = s.now := rfl

@[simp] theorem withPlayer_epochPlayers (s : ContractState) (p : Nat)
    (v : Player) : (s.withPlayer p v).epochPlayers = s.epochPlayers := rfl

@[simp] theorem withPlayer_epochs (s : ContractState) (p : Nat) (v : Player) :
    (s.withPlayer p v).epochs = s.epochs := rfl

@[simp] theorem withPlayer_sessions (s : ContractState) (p : Nat)
    (v : Player) : (s.withPlayer p v).sessions = s.sessions := rfl

@[simp] theorem withPlayer_games (s : ContractState) (p : Nat) (v : Player) :
    (s.withPlayer p v).games = s.games := rfl

@[simp] theorem withPlayer_claimed (s : ContractState) (p : Nat) (v : Player) :
    (s.withPlayer p v).claimed = s.claimed := rfl

@[simp] theorem withPlayer_vaultBalance (s : ContractState) (p : Nat)
    (v : Player) : (s.withPlayer p v).vaultBalance = s.vaultBalance := rfl

@[simp] theorem withPlayer_players_same (s : ContractState) (p : Nat)
    (v : Player) : (s.withPlayer p v).players p = some v := by
  simp [ContractState.withPlayer]

theorem withPlayer_players_other (s : ContractState) (p q : Nat) (v : Player)
    (h : q ≠ p) : (s.withPlayer p v).players q = s.players q := by
  simp [ContractState.withPlayer, h]

@[simp] theorem withEpochPlayer_paused (s : ContractState) (e p : Nat)
    (v : EpochPlayer) : (s.withEpochPlayer e p v).paused = s.paused := rfl

@[simp] theorem withEpochPlayer_currentEpoch (s : ContractState) (e p : Nat)
    (v : EpochPlayer) :
    (s.withEpochPlayer e p v).currentEpoch = s.currentEpoch := rfl

@[simp] theorem withEpochPlayer_now (s : ContractState) (e p : Nat)
    (v : EpochPlayer) : (s.withEpochPlayer e p v).now = s.now := rfl

@[simp] theorem withEpochPlayer_players (s : ContractState) (e p : Nat)
    (v : EpochPlayer) : (s.withEpochPlayer e p v).players = s.players := rfl

@[simp] theorem withEpochPlayer_epochs (s : ContractState) (e p : Nat)
    (v : EpochPlayer) : (s.withEpochPlayer e p v).epochs = s.epochs := rfl

@[simp] theorem withEpochPlayer_sessions (s : ContractState) (e p : Nat)
    (v : EpochPlayer) : (s.withEpochPlayer e p v).sessions = s.sessions := rfl

@[simp] theorem withEpochPlayer_games (s : ContractState) (e p : Nat)
    (v : EpochPlayer) : (s.withEpochPlayer e p v).games = s.games := rfl

@[simp] theorem withEpochPlayer_claimed (s : ContractState) (e p : Nat)
    (v : EpochPlayer) : (s.withEpochPlayer e p v).claimed = s.claimed := rfl

@[simp] theorem withEpochPlayer_vaultBalance (s : ContractState) (e p : Nat)
    (v : EpochPlayer) :
    (s.withEpochPlayer e p v).vaultBalance = s.vaultBalance := rfl

@[simp] theorem withEpochPlayer_lookup_same (s : ContractState) (e p : Nat)
    (v : EpochPlayer) : (s.withEpochPlayer e p v).epochPlayers e p = some v := by
  simp [ContractState.withEpochPlayer]

theorem withEpochPlayer_lookup_other_player (s : ContractState) (e p q : Nat)
    (v : EpochPlayer) (h : q ≠ p) :
    (s.withEpochPlayer e p v).epochPlayers e q = s.epochPlayers e q := by
  simp [ContractState.withEpochPlayer, h]

theorem withEpochPlayer_lookup_other (s : ContractState) (e p e' q : Nat)
    (v : EpochPlayer) (h : ¬(e' = e ∧ q = p)) :
    (s.withEpochPlayer e p v).epochPlayers e' q = s.epochPlayers e' q := by
  simp [ContractState.withEpochPlayer, h]

@[simp] theorem withEpoch_paused (s : ContractState) (e : Nat)
    (v : EpochInfo) : (s.withEpoch e v).paused = s.paused := rfl

@[simp] theorem withEpoch_currentEpoch (s : ContractState) (e : Nat)
    (v : EpochInfo) : (s.withEpoch e v).currentEpoch = s.currentEpoch := rfl

@[simp] theorem withEpoch_now (s : ContractState) (e : Nat) (v : EpochInfo) :
    (s.withEpoch e v).now = s.now := rfl

@[simp] theorem withEpoch_players (s : ContractState) (e : Nat)
    (v : EpochInfo) : (s.withEpoch e v).players = s.players := rfl

@[simp] theorem withEpoch_epochPlayers (s : ContractState) (e : Nat)
    (v : EpochInfo) : (s.withEpoch e v).epochPlayers = s.epochPlayers := rfl

@[simp] theorem withEpoch_sessions (s : ContractState) (e : Nat)
    (v : EpochInfo) : (s.withEpoch e v).sessions = s.sessions := rfl

@[simp] theorem withEpoch_claimed (s : ContractState) (e : Nat)
    (v : EpochInfo) : (s.withEpoch e v).claimed = s.claimed := rfl

@[simp] theorem withEpoch_lookup_same (s : ContractState) (e : Nat)
    (v : EpochInfo) : (s.withEpoch e v).epochs e = some v := by
  simp [ContractState.withEpoch]

@[simp] theorem withSession_paused (s : ContractState) (sid : Nat)
    (v : GameSession) : (s.withSession sid v).paused = s.paused := rfl

@[simp] theorem withSession_currentEpoch (s : ContractState) (sid : Nat)
    (v : GameSession) :
    (s.withSession sid v).currentEpoch = s.currentEpoch := rfl

@[simp] theorem withSession_now (s : ContractState) (sid : Nat)
    (v : GameSession) : (s.withSession sid v).now = s.now := rfl

@[simp] theorem withSession_players (s : ContractState) (sid : Nat)
    (v : GameSession) : (s.withSession sid v).players = s.players := rfl

@[simp] theorem withSession_epochPlayers (s : ContractState) (sid : Nat)
    (v : GameSession) :
    (s.withSession sid v).epochPlayers = s.epochPlayers := rfl

@[simp] theorem withSession_epochs (s : ContractState) (sid : Nat)
    (v : GameSession) : (s.withSession sid v).epochs = s.epochs := rfl

@[simp] theorem withSession_claimed (s : ContractState) (sid : Nat)
    (v : GameSession) : (s.withSession sid v).claimed = s.claimed := rfl

@[simp] theorem withSession_lookup_same (s : ContractState) (sid : Nat)
    (v : GameSession) : (s.withSession sid v).sessions sid = some v := by
  simp [ContractState.withSession]

@[simp] theorem set_claimed_lookup_same (s : ContractState) (p e : Nat) :
    (set_claimed s p e).claimed p e = some true := by
  simp [set_claimed]

@[simp] theorem set_claimed_paused (s : ContractState) (p e : Nat) :
    (set_claimed s p e).paused = s.paused := rfl

@[simp] theorem set_claimed_epochs (s : ContractState) (p e : Nat) :
    (set_claimed s p e).epochs = s.epochs := rfl

@[simp] theorem set_claimed_epochPlayers (s : ContractState) (p e : Nat) :
    (set_claimed s p e).epochPlayers = s.epochPlayers := rfl

-- ===========================================================================
-- Faction registry (faction.rs, present in the snapshot)
-- ===========================================================================

namespace Faction

/-- Modelled from the spec: Faction.is_valid lives in the absent types.rs;
the spec (section 4.1) and the faction.rs / lib.rs doc comments fix it as
membership in the three faction ids 0, 1, 2. -/
def is_valid (faction : Nat) : Bool := faction ≤ 2

end Faction

/-- faction.rs select_faction (lines 35-62): validate the faction id, get
or create the Player record (defaults time_multiplier_start = 0 and
last_epoch_balance = 0), unconditionally overwrite selected_faction, save.
The require_auth call and the event emission are elided. -/
def select_faction (s : ContractState) (player faction : Nat) :
    Except Error ContractState :=
  if Faction.is_valid faction = false then .error .InvalidFaction
  else
    let player_data := (s.players player).getD
      { selected_faction := faction
        time_multiplier_start := 0
        last_epoch_balance := 0 }
    let player_data := { player_data with selected_faction := faction }
    .ok (s.withPlayer player player_data)

/-- faction.rs lock_epoch_faction (lines 84-117): read the Player record
(FactionNotSelected if absent), get or create the EpochPlayer record; if
epoch_faction is already locked return it without writing, otherwise lock
the currently selected faction, persist and return it. -/
def lock_epoch_faction (s : ContractState) (player current_epoch : Nat) :
    Except Error (Nat × ContractState) :=
  match s.players player with
  | none => .error .FactionNotSelected
  | some player_data =>
    let selected_faction := player_data.selected_faction
    let epoch_player := (s.epochPlayers current_epoch player).getD
      { epoch_faction := none
        epoch_balance_snapshot := 0
        available_fp := 0
        total_fp_contributed := 0 }
    match epoch_player.epoch_faction with
    | some locked_faction => .ok (locked_faction, s)
    | none =>
      let epoch_player := { epoch_player with epoch_faction := some selected_faction }
      .ok (selected_faction, s.withEpochPlayer current_epoch player epoch_player)

-- ===========================================================================
-- Faction point ledger (faction_points.rs is absent from the snapshot;
-- modelled from spec sections 4.2 and 9)
-- ===========================================================================

/-- Fixed-point scale factor, 7 decimals (matching the payout token's
precision, spec section 6). -/
def SCALAR_7 : Int := 10000000

/-- External vault balance read (vault::get_vault_balance; the vault's
reported balance is treated as ground truth, spec section 9). -/
def get_vault_balance (s : ContractState) (player : Nat) : Int :=
  s.vaultBalance player

/-- Age of the time multiplier: seconds since the player's
time_multiplier_start anchor (spec section 4.2: a function of
now - time_multiplier_anchor). -/
def timeMultiplierAge (s : ContractState) (p : Player) : Nat :=
  s.now - p.time_multiplier_start

/-- Modelled from the spec: the time-multiplier curve of the absent
faction_points.rs. The spec (sections 4.2 and 9) fixes only that it is
monotonically non-decreasing and bounded above by a protocol constant;
a representative such curve in SCALAR_7 fixed point is used (1.0x at age
zero, capped at 2.0x). No verified claim depends on the curve's shape. -/
def time_multiplier (age : Nat) : Int :=
  min (SCALAR_7 + (age : Int)) (2 * SCALAR_7)

/-- Modelled from the spec: the amount-multiplier curve of the absent
faction_points.rs (increasing but sub-linear, spec section 4.2); a
representative bounded curve in SCALAR_7 fixed point. No verified claim
depends on the curve's shape. -/
def amount_multiplier (balance : Int) : Int :=
  SCALAR_7 + min balance SCALAR_7

/-- Modelled from the spec: faction_points.rs calculate_faction_points,
fp = balance x amount_multiplier(balance) x time_multiplier(age) in
fixed-point arithmetic (spec section 4.2). The i128 overflow checks of
the source cannot fire over unbounded Int and are elided. -/
def calculate_faction_points (s : ContractState) (player : Nat) : Int :=
  let pd := (s.players player).getD
    { selected_faction := 0, time_multiplier_start := 0, last_epoch_balance := 0 }
  let balance := get_vault_balance s player
  balance * amount_multiplier balance / SCALAR_7
    * time_multiplier (timeMultiplierAge s pd) / SCALAR_7

/-- Modelled from the spec: faction_points.rs
detect_and_apply_withdrawal_reset (spec section 4.2 and lib.rs lines
308-317, which document that the 50 percent withdrawal reset is enforced
by cross-epoch balance comparison). Compares the detected current vault
balance against the reference balance last_epoch_balance recorded in the
Player record; if the current balance is less than or equal to 50 percent
of the reference (2 x current <= reference, exact over integers), the
time-multiplier anchor is reset to the current ledger timestamp and the
reference balance is updated to the new lower balance; otherwise the
record is left unchanged. -/
def detect_and_apply_withdrawal_reset (now : Nat) (current_balance : Int)
    (p : Player) : Player :=
  if 2 * current_balance ≤ p.last_epoch_balance then
    { p with time_multiplier_start := now, last_epoch_balance := current_balance }
  else p

/-- Modelled from the spec: lazy materialization of a player's epoch
state on their first session of an epoch (spec sections 4.2 and 4.3):
lock the epoch faction via faction.rs lock_epoch_faction, and if the
EpochPlayer record did not exist yet, run the withdrawal-reset check on
the Player record and set available_fp to the freshly computed faction
points, the balance snapshot to the current vault balance and
total_fp_contributed to 0. -/
def materialize_epoch_player (s : ContractState) (player : Nat) :
    Except Error ContractState :=
  let current_epoch := s.currentEpoch
  let first_touch := (s.epochPlayers current_epoch player).isNone
  match lock_epoch_faction s player current_epoch with
  | .error e => .error e
  | .ok (_, s₁) =>
    if first_touch then
      match s₁.players player with
      | none => .error .FactionNotSelected
      | some pd =>
        let balance := get_vault_balance s₁ player
        let pd₁ := detect_and_apply_withdrawal_reset s₁.now balance pd
        let s₂ := s₁.withPlayer player pd₁
        let fp := calculate_faction_points s₂ player
        let ep := (s₂.epochPlayers current_epoch player).getD
          { epoch_faction := none, epoch_balance_snapshot := 0
            available_fp := 0, total_fp_contributed := 0 }
        let ep₁ := { ep with epoch_balance_snapshot := balance
                             available_fp := fp
                             total_fp_contributed := 0 }
        .ok (s₂.withEpochPlayer current_epoch player ep₁)
    else .ok s₁

-- ===========================================================================
-- Game session coordinator (game.rs is absent from the snapshot; modelled
-- from spec section 4.3; the lib.rs wrappers are present and translated
-- below)
-- ===========================================================================

/-- Modelled from the spec: game.rs start_game (spec section 4.3).
Checks the whitelist, session-id uniqueness and wager positivity, then
for each player in turn lazily locks the faction and materializes epoch
FP, checks available_fp against the wager and deducts it, and finally
persists the new Pending session. -/
def start_game_impl (s : ContractState) (game_id session_id p1 p2 : Nat)
    (w1 w2 : Int) : Except Error ContractState :=
  if s.games game_id = false then .error .GameNotWhitelisted
  else if (s.sessions session_id).isSome then .error .SessionAlreadyExists
  else if w1 ≤ 0 then .error .InvalidAmount
  else if w2 ≤ 0 then .error .InvalidAmount
  else
    match materialize_epoch_player s p1 with
    | .error e => .error e
    | .ok s₁ =>
      match materialize_epoch_player s₁ p2 with
      | .error e => .error e
      | .ok s₂ =>
        let cur := s₂.currentEpoch
        let ep1 := (s₂.epochPlayers cur p1).getD
          { epoch_faction := none, epoch_balance_snapshot := 0
            available_fp := 0, total_fp_contributed := 0 }
        if ep1.available_fp < w1 then .error .InsufficientFactionPoints
        else
          let s₃ := s₂.withEpochPlayer cur p1
            { ep1 with available_fp := ep1.available_fp - w1 }
          let ep2 := (s₃.epochPlayers cur p2).getD
            { epoch_faction := none, epoch_balance_snapshot := 0
              available_fp := 0, total_fp_contributed := 0 }
          if ep2.available_fp < w2 then .error .InsufficientFactionPoints
          else
            let s₄ := s₃.withEpochPlayer cur p2
              { ep2 with available_fp := ep2.available_fp - w2 }
            .ok (s₄.withSession session_id
              { game_id := game_id, player1 := p1, player2 := p2
                player1_wager := w1, player2_wager := w2
                status := .Pending })

/-- Modelled from the spec: proof verification is currently a stub
pending an external verifier (spec section 4.3, lib.rs line 431). -/
def verify_proof (_proof : List Nat) (_outcome : GameOutcome) : Bool := true

/-- Modelled from the spec: game.rs end_game (spec section 4.3). Looks up
the Pending session, checks the outcome against the stored session,
verifies the (stub) proof; then the winner receives both wagers back into
available_fp, the winner's total_fp_contributed and the epoch's
faction_standings entry for the winner's locked epoch faction increase by
the loser's wager only, and the session is marked Settled. The
require_auth on the game contract is elided. -/
def end_game_impl (s : ContractState) (game_id session_id : Nat)
    (proof : List Nat) (outcome : GameOutcome) : Except Error ContractState :=
  match s.sessions session_id with
  | none => .error .SessionNotFound
  | some sess =>
    if sess.status ≠ GameStatus.Pending then .error .InvalidSessionState
    else if ¬(game_id = sess.game_id ∧ outcome.game_id = sess.game_id ∧
              outcome.session_id = session_id ∧
              outcome.player1 = sess.player1 ∧ outcome.player2 = sess.player2)
      then .error .InvalidGameOutcome
    else if verify_proof proof outcome = false then .error .ProofVerificationFailed
    else
      let cur := s.currentEpoch
      let winner := if outcome.winner then sess.player1 else sess.player2
      let loser_wager := if outcome.winner then sess.player2_wager else sess.player1_wager
      let pot := sess.player1_wager + sess.player2_wager
      let wep := (s.epochPlayers cur winner).getD
        { epoch_faction := none, epoch_balance_snapshot := 0
          available_fp := 0, total_fp_contributed := 0 }
      let winner_faction := wep.epoch_faction.getD 0
      let wep₁ := { wep with
        available_fp := wep.available_fp + pot,
        total_fp_contributed := wep.total_fp_contributed + loser_wager }
      let s₁ := s.withEpochPlayer cur winner wep₁
      let s₂ :=
        match s₁.epochs cur with
        | none => s₁
        | some info => s₁.withEpoch cur
            { info with faction_standings :=
                standingsAdd info.faction_standings winner_faction loser_wager }
      .ok (s₂.withSession session_id { sess with status := .Settled })

-- ===========================================================================
-- Reward distributor (rewards.rs is absent from the snapshot; modelled
-- from spec section 4.5)
-- ===========================================================================

/-- Modelled from the spec: rewards.rs claim_epoch_reward (spec section
4.5). Fails EpochNotFinalized when the epoch is absent or not finalized,
RewardAlreadyClaimed when a claim record exists, NotWinningFaction when
the player's locked epoch faction is not the winning faction,
NoRewardsAvailable when the player contributed nothing or the winning
faction's standing is zero; otherwise pays the floor-rounded
proportional share and writes the claim record. The token transfer is
external and elided. -/
def claim_epoch_reward_impl (s : ContractState) (player epoch : Nat) :
    Except Error (Int × ContractState) :=
  match s.epochs epoch with
  | none => .error .EpochNotFinalized
  | some info =>
    if info.is_finalized = false then .error .EpochNotFinalized
    else if has_claimed s player epoch then .error .RewardAlreadyClaimed
    else
      let ep := (s.epochPlayers epoch player).getD
        { epoch_faction := none, epoch_balance_snapshot := 0
          available_fp := 0, total_fp_contributed := 0 }
      if ep.epoch_faction ≠ some info.winning_faction then .error .NotWinningFaction
      else
        let contributed := ep.total_fp_contributed
        let faction_total := standingsGet info.faction_standings info.winning_faction
        if contributed = 0 ∨ faction_total = 0 then .error .NoRewardsAvailable
        else
          let payout := info.reward_pool * contributed / faction_total
          .ok (payout, set_claimed s player epoch)

-- ===========================================================================
-- Public entry points (lib.rs, present in the snapshot)
-- ===========================================================================

/-- lib.rs get_player (lines 350-352): the stored Player record or
PlayerNotFound. -/
def get_player (s : ContractState) (player : Nat) : Except Error Player :=
  match s.players player with
  | none => .error .PlayerNotFound
  | some d => .ok d

/-- lib.rs get_epoch_player (lines 365-389): return the stored
EpochPlayer for the current epoch if present; otherwise require that the
player exists (FactionNotSelected), compute FP on the fly and return a
record with epoch_faction = None and total_fp_contributed = 0 WITHOUT
writing to storage (the state is returned unchanged alongside the
result). -/
def get_epoch_player (s : ContractState) (player : Nat) :
    Except Error (EpochPlayer × ContractState) :=
  let current_epoch := s.currentEpoch
  match s.epochPlayers current_epoch player with
  | some epoch_player => .ok (epoch_player, s)
  | none =>
    match s.players player with
    | none => .error .FactionNotSelected
    | some _ =>
      let total_fp := calculate_faction_points s player
      let current_balance := get_vault_balance s player
      .ok ({ epoch_faction := none
             epoch_balance_snapshot := current_balance
             available_fp := total_fp
             total_fp_contributed := 0 }, s)

/-- lib.rs start_game (lines 406-425): require_not_paused, then
game::start_game. -/
def start_game (s : ContractState) (game_id session_id p1 p2 : Nat)
    (w1 w2 : Int) : Except Error ContractState :=
  match require_not_paused s with
  | .error e => .error e
  | .ok _ => start_game_impl s game_id session_id p1 p2 w1 w2

/-- lib.rs end_game (lines 438-446): delegates directly to
game::end_game with NO pause check. -/
def end_game (s : ContractState) (game_id session_id : Nat)
    (proof : List Nat) (outcome : GameOutcome) : Except Error ContractState :=
  end_game_impl s game_id session_id proof outcome

/-- lib.rs claim_epoch_reward (lines 500-503): require_not_paused, then
rewards::claim_epoch_reward. -/
def claim_epoch_reward (s : ContractState) (player epoch : Nat) :
    Except Error (Int × ContractState) :=
  match require_not_paused s with
  | .error e => .error e
  | .ok _ => claim_epoch_reward_impl s player epoch

-- ===========================================================================
-- Player schema migration (storage.rs migrate_player_storage, lines
-- 137-199, present in the snapshot). The per-player storage is the pair
-- of slots DataKey::User (old key) and DataKey::Player (new key); each
-- slot holds a record in one of the tagged historical formats. A typed
-- storage().persistent().get::<_, V>() returns None for an empty slot
-- and Some for a matching format, and PANICS (traps, aborting the whole
-- invocation) when the stored value does not convert to V - this
-- soroban-sdk generation panics on conversion failure, and
-- migrate_player_storage uses get, not the non-panicking try_get. The
-- trap is modelled as the none outcome of the surrounding computation.
-- ===========================================================================

/-- Player record, V0 format (pre-Nov 10): selected_faction,
total_deposited, deposit_timestamp (storage.rs lines 131, 165-172). -/
structure PlayerV0 where
  selected_faction : Nat
  total_deposited : Int
  deposit_timestamp : Nat
deriving DecidableEq, Repr

/-- Player record, V1 format (Nov 10-12): selected_faction,
deposit_timestamp, last_epoch_balance (storage.rs lines 132, 147-155). -/
structure PlayerV1 where
  selected_faction : Nat
  deposit_timestamp : Nat
  last_epoch_balance : Int
deriving DecidableEq, Repr

/-- A stored player record in one of the tagged historical formats. -/
inductive PRec where
  | v0 : PlayerV0 → PRec
  | v1 : PlayerV1 → PRec
  | v2 : Player → PRec
deriving DecidableEq, Repr

/-- The two per-player storage slots: DataKey::User (old key, deprecated)
and DataKey::Player (new key). -/
structure PlayerSlots where
  oldKey : Option PRec
  newKey : Option PRec
deriving DecidableEq, Repr

/-- Typed get of a slot as a V0 record: none for an empty slot, some for
V0 data, and a trap (outer none) when the slot holds any other format. -/
def getPlayerV0 : Option PRec → Option (Option PlayerV0)
  | none => some none
  | some (.v0 r) => some (some r)
  | some _ => none

/-- Typed get of a slot as a V1 record: none for an empty slot, some for
V1 data, and a trap (outer none) when the slot holds any other format. -/
def getPlayerV1 : Option PRec → Option (Option PlayerV1)
  | none => some none
  | some (.v1 r) => some (some r)
  | some _ => none

/-- Typed get of a slot as a current-format (V2) record: none for an
empty slot, some for V2 data, and a trap (outer none) when the slot
holds any other format. -/
def getPlayerV2 : Option PRec → Option (Option Player)
  | none => some none
  | some (.v2 r) => some (some r)
  | some _ => none

/-- storage.rs migrate_player_storage (lines 137-199) under soroban-sdk
get semantics (a mismatched typed read panics; the trap propagates as
the outer none - a trapped invocation commits nothing). Branches in
source order: (1) read the new key as current V2 via get_player (line
142): found means already migrated, return false; (2) read the old key
as V1 (line 148): convert (time_multiplier_start from
deposit_timestamp), delete the old key, write V2 under the new key,
return true; (3) read the old key as V0 (line 166): convert with
last_epoch_balance = 0; (4) read the new key as V1 (line 185): rewrite
in place; otherwise return false. Because a mismatched read traps,
branches (3) and (4) are unreachable: any state that would exercise them
already trapped at (2) or (1) - see migrate_player_storage_reachable. -/
def migrate_player_storage (st : PlayerSlots) : Option (Bool × PlayerSlots) :=
  match getPlayerV2 st.newKey with
  | none => none
  | some (some _) => some (false, st)
  | some none =>
    match getPlayerV1 st.oldKey with
    | none => none
    | some (some old) =>
      some (true,
        { oldKey := none,
          newKey := some (.v2 { selected_faction := old.selected_faction,
                                time_multiplier_start := old.deposit_timestamp,
                                last_epoch_balance := old.last_epoch_balance }) })
    | some none =>
      match getPlayerV0 st.oldKey with
      | none => none
      | some (some old) =>
        some (true,
          { oldKey := none,
            newKey := some (.v2 { selected_faction := old.selected_faction,
                                  time_multiplier_start := old.deposit_timestamp,
                                  last_epoch_balance := 0 }) })
      | some none =>
        match getPlayerV1 st.newKey with
        | none => none
        | some (some old) =>
          some (true,
            { oldKey := st.oldKey,
              newKey := some (.v2 { selected_faction := old.selected_faction,
                                    time_multiplier_start := old.deposit_timestamp,
                                    last_epoch_balance := old.last_epoch_balance }) })
        | some none => some (false, st)

/-- Every call of migrate_player_storage that does not trap either
returns false leaving the slots unchanged, or performs the
V1-under-old-key conversion: the V0 branch (storage.rs lines 165-181)
and the new-key V1 branch (lines 183-195) are dead code, since any state
that would reach them traps at an earlier mismatched typed read. -/
theorem migrate_player_storage_reachable (st : PlayerSlots) (b : Bool)
    (st' : PlayerSlots) (h : migrate_player_storage st = some (b, st')) :
    (b = false ∧ st' = st) ∨
    (b = true ∧ ∃ old, st.oldKey = some (.v1 old) ∧ st.newKey = none ∧
      st' = { oldKey := none,
              newKey := some (.v2
                { selected_faction := old.selected_faction,
                  time_multiplier_start := old.deposit_timestamp,
                  last_epoch_balance := old.last_epoch_balance }) }) := by
  obtain ⟨o, n⟩ := st
  rcases n with _ | q
  · rcases o with _ | r
    · have h' : some (false, (⟨none, none⟩ : PlayerSlots)) = some (b, st') := h
      injection h' with h₂
      injection h₂ with hb hst
      exact Or.inl ⟨hb.symm, hst.symm⟩
    · rcases r with ⟨r0⟩ | ⟨r1⟩ | ⟨r2⟩
      · exact absurd h (by simp [migrate_player_storage, getPlayerV0,
          getPlayerV1, getPlayerV2])
      · have h' : some (true,
            (⟨none, some (.v2 { selected_faction := r1.selected_faction,
                                time_multiplier_start := r1.deposit_timestamp,
                                last_epoch_balance := r1.last_epoch_balance })⟩ :
              PlayerSlots)) = some (b, st') := h
        injection h' with h₂
        injection h₂ with hb hst
        exact Or.inr ⟨hb.symm, r1, rfl, rfl, hst.symm⟩
      · exact absurd h (by simp [migrate_player_storage, getPlayerV0,
          getPlayerV1, getPlayerV2])
  · rcases q with ⟨q0⟩ | ⟨q1⟩ | ⟨q2⟩
    · exact absurd h (by simp [migrate_player_storage, getPlayerV2])
    · exact absurd h (by simp [migrate_player_storage, getPlayerV2])
    · have h' : some (false, (⟨o, some (.v2 q2)⟩ : PlayerSlots)) =
          some (b, st') := h
      injection h' with h₂
      injection h₂ with hb hst
      exact Or.inl ⟨hb.symm, hst.symm⟩

-- ===========================================================================
-- Auxiliary lemmas and observation helpers
-- ===========================================================================

theorem standingsGet_standingsAdd_same (l : List (Nat × Int)) (f : Nat)
    (amt : Int) :
    standingsGet (standingsAdd l f amt) f = standingsGet l f + amt := by
  induction l with
  | nil => simp [standingsAdd, standingsGet]
  | cons kv rest ih =>
    obtain ⟨k, v⟩ := kv
    by_cases hk : k = f
    · simp [standingsAdd, standingsGet, hk]
    · simp [standingsAdd, standingsGet, hk, ih]

/-- Observed available_fp of a player in the current epoch (0 when the
record is absent). -/
def availAt (s : ContractState) (p : Nat) : Int :=
  ((s.epochPlayers s.currentEpoch p).getD
    { epoch_faction := none, epoch_balance_snapshot := 0
      available_fp := 0, total_fp_contributed := 0 }).available_fp

/-- Observed total_fp_contributed of a player in the current epoch. -/
def contribAt (s : ContractState) (p : Nat) : Int :=
  ((s.epochPlayers s.currentEpoch p).getD
    { epoch_faction := none, epoch_balance_snapshot := 0
      available_fp := 0, total_fp_contributed := 0 }).total_fp_contributed

/-- Observed faction standing in the current epoch. -/
def standingsAt (s : ContractState) (f : Nat) : Int :=
  match s.epochs s.currentEpoch with
  | some info => standingsGet info.faction_standings f
  | none => 0

/-- Faction read off a get_player result. -/
def selectedOf : Except Error Player → Option Nat
  | .ok pd => some pd.selected_faction
  | .error _ => none

-- ===========================================================================
-- Example states used by the witness theorems
-- ===========================================================================

/-- Player 1 has a Player record (faction 2) and a locked EpochPlayer
record for the current epoch 0; player 3 has a Player record (faction 1)
and no EpochPlayer record; player 2 is unknown. -/
def sReg : ContractState where
  paused := false
  currentEpoch := 0
  now := 1000
  players := fun q =>
    if q = 1 then some { selected_faction := 2, time_multiplier_start := 10,
                         last_epoch_balance := 500 }
    else if q = 3 then some { selected_faction := 1, time_multiplier_start := 0,
                              last_epoch_balance := 0 }
    else none
  epochPlayers := fun e p =>
    if e = 0 ∧ p = 1 then
      some { epoch_faction := some 2, epoch_balance_snapshot := 500,
             available_fp := 900, total_fp_contributed := 0 }
    else none
  epochs := fun _ => none
  sessions := fun _ => none
  games := fun _ => false
  claimed := fun _ _ => none
  vaultBalance := fun _ => 500

/-- Epoch 0 finalized with winning faction 2, standing 40, pool 1000;
player 1 locked faction 2 with contribution 10. -/
def sClaim : ContractState where
  paused := false
  currentEpoch := 1
  now := 0
  players := fun _ => none
  epochPlayers := fun e p =>
    if e = 0 ∧ p = 1 then
      some { epoch_faction := some 2, epoch_balance_snapshot := 0,
             available_fp := 0, total_fp_contributed := 10 }
    else none
  epochs := fun e =>
    if e = 0 then
      some { epoch_number := 0, start_time := 0, end_time := 100,
             is_finalized := true, winning_faction := 2,
             faction_standings := [(2, 40)], reward_pool := 1000 }
    else none
  sessions := fun _ => none
  games := fun _ => false
  claimed := fun _ _ => none
  vaultBalance := fun _ => 0

-- ===========================================================================
-- Claim C1 (withdrawal-reset rule)
-- ===========================================================================

/-- Claim C1: the withdrawal-reset check compares the detected current
vault balance against the reference balance B recorded in the Player
record; when the current balance is at most half of B (2 x balance <= B,
the exact integer form of balance <= 0.5 x B) the time-multiplier anchor
is reset to the current ledger timestamp and the recorded reference
balance is updated to the new lower balance, and when the current balance
is strictly greater than half of B the record - in particular the
anchor - is left untouched. -/
theorem withdrawal_reset_correct (now : Nat) (bal : Int) (p : Player) :
    (2 * bal ≤ p.last_epoch_balance →
      detect_and_apply_withdrawal_reset now bal p =
        { p with time_multiplier_start := now, last_epoch_balance := bal }) ∧
    (p.last_epoch_balance < 2 * bal →
      (detect_and_apply_withdrawal_reset now bal p).time_multiplier_start =
          p.time_multiplier_start ∧
        detect_and_apply_withdrawal_reset now bal p = p) := by
  constructor
  · intro h
    simp [detect_and_apply_withdrawal_reset, h]
  · intro h
    simp [detect_and_apply_withdrawal_reset, not_le.mpr h]

/-- Witness for C1: reference balance 100, detected balance 50 (exactly
half) resets the anchor to the current time 77 and the reference balance
to 50; detected balance 51 leaves the record untouched. -/
theorem withdrawal_reset_witness :
    (2 * (50 : Int) ≤ (100 : Int) ∧
      detect_and_apply_withdrawal_reset 77 50
        { selected_faction := 0, time_multiplier_start := 5,
          last_epoch_balance := 100 } =
        { selected_faction := 0, time_multiplier_start := 77,
          last_epoch_balance := 50 }) ∧
    ((100 : Int) < 2 * (51 : Int) ∧
      detect_and_apply_withdrawal_reset 77 51
        { selected_faction := 0, time_multiplier_start := 5,
          last_epoch_balance := 100 } =
        { selected_faction := 0, time_multiplier_start := 5,
          last_epoch_balance := 100 }) :=
  ⟨⟨by decide, (withdrawal_reset_correct 77 50
      { selected_faction := 0, time_multiplier_start := 5,
        last_epoch_balance := 100 }).1 (by decide)⟩,
   ⟨by decide, ((withdrawal_reset_correct 77 51
      { selected_faction := 0, time_multiplier_start := 5,
        last_epoch_balance := 100 }).2 (by decide)).2⟩⟩

-- ===========================================================================
-- Claim C3 (lock_epoch_faction idempotence)
-- ===========================================================================

/-- Claim C3: lock_epoch_faction fails with FactionNotSelected (touching
nothing) when the player has no Player record; when the EpochPlayer
record for (epoch, player) already carries epoch_faction = Some f it
returns f and leaves the state - in particular the stored record -
unchanged; otherwise it locks the player's currently selected faction
(into the existing record, or into a fresh default record), persists it
and returns it. -/
theorem lock_epoch_faction_correct (s : ContractState) (p e : Nat) :
    (s.players p = none →
      lock_epoch_faction s p e = .error .FactionNotSelected) ∧
    (∀ pd r f, s.players p = some pd → s.epochPlayers e p = some r →
      r.epoch_faction = some f →
      lock_epoch_faction s p e = .ok (f, s)) ∧
    (∀ pd r, s.players p = some pd → s.epochPlayers e p = some r →
      r.epoch_faction = none →
      lock_epoch_faction s p e =
        .ok (pd.selected_faction,
          s.withEpochPlayer e p
            { r with epoch_faction := some pd.selected_faction })) ∧
    (∀ pd, s.players p = some pd → s.epochPlayers e p = none →
      lock_epoch_faction s p e =
        .ok (pd.selected_faction,
          s.withEpochPlayer e p
            { epoch_faction := some pd.selected_faction,
              epoch_balance_snapshot := 0, available_fp := 0,
              total_fp_contributed := 0 })) := by
  refine ⟨fun h => ?_, fun pd r f hpd hr hf => ?_, fun pd r hpd hr hf => ?_,
    fun pd hpd hr => ?_⟩
  · simp [lock_epoch_faction, h]
  · simp [lock_epoch_faction, hpd, hr, hf]
  · simp [lock_epoch_faction, hpd, hr, hf]
  · simp [lock_epoch_faction, hpd, hr]

/-- Witness for C3: player 1's faction is already locked to 2 for epoch
0 in sReg, so lock_epoch_faction returns 2 and the state unchanged. -/
theorem lock_epoch_faction_witness :
    lock_epoch_faction sReg 1 0 = .ok (2, sReg) :=
  (lock_epoch_faction_correct sReg 1 0).2.1
    { selected_faction := 2, time_multiplier_start := 10,
      last_epoch_balance := 500 }
    { epoch_faction := some 2, epoch_balance_snapshot := 500,
      available_fp := 900, total_fp_contributed := 0 }
    2 rfl rfl rfl

-- ===========================================================================
-- Claim C4 (select_faction validates and persists)
-- ===========================================================================

/-- Claim C4: select_faction fails with InvalidFaction for every faction
id outside 0..2 (changing nothing - the error aborts before any write);
for every valid id it succeeds, creating the Player record with defaults
when absent and otherwise overwriting selected_faction, and a subsequent
get_player reads back exactly the chosen faction. The state s is
universally quantified, so the success and read-back property hold for
arbitrarily repeated calls. -/
theorem select_faction_correct (s : ContractState) (p f : Nat) :
    (Faction.is_valid f = false →
      select_faction s p f = .error .InvalidFaction) ∧
    (Faction.is_valid f = true →
      select_faction s p f =
        .ok (s.withPlayer p
          { (s.players p).getD
              { selected_faction := f, time_multiplier_start := 0,
                last_epoch_balance := 0 } with selected_faction := f }) ∧
      ∀ s', select_faction s p f = .ok s' →
        selectedOf (get_player s' p) = some f) := by
  constructor
  · intro h
    simp [select_faction, h]
  · intro h
    constructor
    · simp [select_faction, h]
    · intro s' hs'
      simp only [select_faction, h] at hs'
      simp only [Bool.true_eq_false, if_false, Except.ok.injEq] at hs'
      subst hs'
      simp [get_player, selectedOf]

/-- Witness for C4: faction 1 is valid; selecting it for the fresh
player 5 in sReg and reading the player back yields faction 1. -/
theorem select_faction_witness :
    Faction.is_valid 1 = true ∧
    selectedOf (get_player (sReg.withPlayer 5
      { selected_faction := 1, time_multiplier_start := 0,
        last_epoch_balance := 0 }) 5) = some 1 :=
  ⟨rfl, ((select_faction_correct sReg 5 1).2 rfl).2 _ rfl⟩

-- ===========================================================================
-- Claim C5 (select_faction never touches EpochPlayer state)
-- ===========================================================================

/-- Claim C5: a successful select_faction leaves the entire EpochPlayer
map unchanged - in particular any already-locked epoch_faction for any
epoch stays exactly as stored - and writes nothing except the Player
record of the selecting player. -/
theorem select_faction_frame (s : ContractState) (p f : Nat)
    (s' : ContractState) (h : select_faction s p f = .ok s') :
    s'.epochPlayers = s.epochPlayers ∧
    (∀ e r, s.epochPlayers e p = some r → s'.epochPlayers e p = some r) ∧
    (∀ e r g, s.epochPlayers e p = some r → r.epoch_faction = some g →
      ((s'.epochPlayers e p).getD
        { epoch_faction := none, epoch_balance_snapshot := 0
          available_fp := 0, total_fp_contributed := 0 }).epoch_faction = some g) ∧
    s'.epochs = s.epochs ∧ s'.sessions = s.sessions ∧
    s'.claimed = s.claimed ∧
    (∀ q, q ≠ p → s'.players q = s.players q) := by
  unfold select_faction at h
  split at h
  · exact absurd h (by simp)
  · rw [Except.ok.injEq] at h
    subst h
    refine ⟨rfl, fun e r hr => ?_, fun e r g hr hg => ?_, rfl, rfl, rfl,
      fun q hq => withPlayer_players_other s p q _ hq⟩
    · simpa using hr
    · simp [hr, hg]

/-- Witness for C5: selecting faction 0 for player 1 (whose epoch 0
faction is locked to 2 in sReg) leaves the whole EpochPlayer map
unchanged. -/
theorem select_faction_frame_witness :
    (sReg.withPlayer 1
      { selected_faction := 0, time_multiplier_start := 10,
        last_epoch_balance := 500 }).epochPlayers = sReg.epochPlayers :=
  (select_faction_frame sReg 1 0 _ rfl).1

-- ===========================================================================
-- Claim C7 (get_epoch_player is read-only for untouched players)
-- ===========================================================================

/-- Claim C7: for a player with no EpochPlayer record in the current
epoch, get_epoch_player fails with FactionNotSelected when the player
has never selected a faction, and otherwise returns an on-the-fly
computed record with epoch_faction = none and total_fp_contributed = 0
together with the UNCHANGED state s - no EpochPlayer record is written,
so a second read still finds no stored record. -/
theorem get_epoch_player_untouched (s : ContractState) (p : Nat)
    (habs : s.epochPlayers s.currentEpoch p = none) :
    (s.players p = none →
      get_epoch_player s p = .error .FactionNotSelected) ∧
    (∀ pd, s.players p = some pd →
      get_epoch_player s p =
        .ok ({ epoch_faction := none,
               epoch_balance_snapshot := get_vault_balance s p,
               available_fp := calculate_faction_points s p,
               total_fp_contributed := 0 }, s)) := by
  constructor
  · intro h
    simp [get_epoch_player, habs, h]
  · intro pd h
    simp [get_epoch_player, habs, h]

/-- Witness for C7: player 3 in sReg has a Player record but no epoch 0
record; get_epoch_player returns a computed record (faction not locked,
zero contribution) and the state unchanged. -/
theorem get_epoch_player_untouched_witness :
    get_epoch_player sReg 3 =
      .ok ({ epoch_faction := none,
             epoch_balance_snapshot := get_vault_balance sReg 3,
             available_fp := calculate_faction_points sReg 3,
             total_fp_contributed := 0 }, sReg) :=
  (get_epoch_player_untouched sReg 3 rfl).2
    { selected_faction := 1, time_multiplier_start := 0,
      last_epoch_balance := 0 } rfl

-- ===========================================================================
-- Claim C10 (new-player anchor starts at 0, not at the current time)
-- ===========================================================================

/-- Claim C10: a successful select_faction for a player with no Player
record creates the record with time_multiplier_start = 0 and
last_epoch_balance = 0; the anchor is NOT set to the current timestamp,
so the time-multiplier age evaluated on the new record equals the full
current ledger timestamp (now - 0 = now). -/
theorem select_faction_new_player (s : ContractState) (p f : Nat)
    (habs : s.players p = none) (hf : Faction.is_valid f = true) :
    select_faction s p f =
      .ok (s.withPlayer p
        { selected_faction := f, time_multiplier_start := 0,
          last_epoch_balance := 0 }) ∧
    (s.withPlayer p
        { selected_faction := f, time_multiplier_start := 0,
          last_epoch_balance := 0 }).players p =
      some { selected_faction := f, time_multiplier_start := 0,
             last_epoch_balance := 0 } ∧
    timeMultiplierAge
      (s.withPlayer p
        { selected_faction := f, time_multiplier_start := 0,
          last_epoch_balance := 0 })
      { selected_faction := f, time_multiplier_start := 0,
        last_epoch_balance := 0 } = s.now := by
  refine ⟨?_, by simp, by simp [timeMultiplierAge]⟩
  simp [select_faction, hf, habs]

/-- Witness for C10: player 2 is unknown in sReg (whose clock reads
1000); selecting faction 0 creates the record with anchor 0, and the
time-multiplier age of the fresh record is the full timestamp 1000. -/
theorem select_faction_new_player_witness :
    sReg.players 2 = none ∧
    timeMultiplierAge
      (sReg.withPlayer 2
        { selected_faction := 0, time_multiplier_start := 0,
          last_epoch_balance := 0 })
      { selected_faction := 0, time_multiplier_start := 0,
        last_epoch_balance := 0 } = 1000 :=
  ⟨rfl, (select_faction_new_player sReg 2 0 rfl rfl).2.2⟩

-- ===========================================================================
-- Claim C8 (player schema migration)
-- ===========================================================================

/-- Claim C8 (code bug): the claim - matching the migration's own doc
comments (storage.rs lines 127-136, lib.rs lines 255-274) - says a V0 or
V1 record is found, deleted and rewritten in current format with the
call returning true; but under soroban-sdk get semantics a V0 record
under the old key traps at the PlayerV1 read of that slot (storage.rs
line 148) before the V0 branch can run, and V0 or V1 data under the new
key traps at the initial get_player read (line 142). Only the
V1-under-old-key migration is reachable, and it does convert as
documented (anchor from deposit_timestamp, balance preserved, old key
deleted, repeated call false on the already-current result). -/
theorem migrate_player_v0_trap :
    migrate_player_storage
      { oldKey := some (.v0 { selected_faction := 1, total_deposited := 5,
                              deposit_timestamp := 7 }),
        newKey := none } = none ∧
    migrate_player_storage
      { oldKey := none,
        newKey := some (.v0 { selected_faction := 1, total_deposited := 5,
                              deposit_timestamp := 7 }) } = none ∧
    migrate_player_storage
      { oldKey := none,
        newKey := some (.v1 { selected_faction := 1, deposit_timestamp := 7,
                              last_epoch_balance := 5 }) } = none ∧
    migrate_player_storage
      { oldKey := some (.v1 { selected_faction := 2, deposit_timestamp := 42,
                              last_epoch_balance := 777 }),
        newKey := none } =
      some (true,
        { oldKey := none,
          newKey := some (.v2 { selected_faction := 2,
                                time_multiplier_start := 42,
                                last_epoch_balance := 777 }) }) ∧
    migrate_player_storage
      { oldKey := none,
        newKey := some (.v2 { selected_faction := 2,
                              time_multiplier_start := 42,
                              last_epoch_balance := 777 }) } =
      some (false,
        { oldKey := none,
          newKey := some (.v2 { selected_faction := 2,
                                time_multiplier_start := 42,
                                last_epoch_balance := 777 }) }) :=
  ⟨rfl, rfl, rfl, rfl, rfl⟩

-- ===========================================================================
-- Claim C6 (claim-once invariant)
-- ===========================================================================

/-- Claim C6: at the storage level, has_claimed returns true right after
set_claimed for the same (player, epoch), returns false for any pair
whose claim slot was never written, and set_claimed touches no other
pair; at the contract level, a successful claim_epoch_reward writes the
claim record for (player, epoch), and a repeated claim_epoch_reward on
the resulting state fails with RewardAlreadyClaimed. -/
theorem claim_once (s : ContractState) (p e : Nat) :
    has_claimed (set_claimed s p e) p e = true ∧
    (s.claimed p e = none → has_claimed s p e = false) ∧
    (∀ q d, ¬(q = p ∧ d = e) →
      (set_claimed s p e).claimed q d = s.claimed q d) ∧
    (∀ amt s', claim_epoch_reward s p e = .ok (amt, s') →
      s'.claimed p e = some true ∧
      claim_epoch_reward s' p e = .error .RewardAlreadyClaimed) := by
  refine ⟨by simp [has_claimed], fun h => by simp [has_claimed, h],
    fun q d h => by simp [set_claimed, h], fun amt s' h => ?_⟩
  unfold claim_epoch_reward require_not_paused at h
  by_cases hp : s.paused
  · simp [hp] at h
  · simp only [hp, if_false] at h
    unfold claim_epoch_reward_impl at h
    rcases hE : s.epochs e with _ | info
    · rw [hE] at h
      exact absurd h (by simp)
    · rw [hE] at h
      by_cases hfin : info.is_finalized = false
      · simp [hfin] at h
      · simp only [hfin, if_false] at h
        by_cases hcl : has_claimed s p e
        · simp [hcl] at h
        · simp only [hcl, if_false] at h
          by_cases hfac :
              ((s.epochPlayers e p).getD
                { epoch_faction := none, epoch_balance_snapshot := 0
                  available_fp := 0, total_fp_contributed := 0 }).epoch_faction ≠
                some info.winning_faction
          · simp [hfac] at h
          · simp only [hfac, if_false] at h
            by_cases hz :
                ((s.epochPlayers e p).getD
                  { epoch_faction := none, epoch_balance_snapshot := 0
                    available_fp := 0,
                    total_fp_contributed := 0 }).total_fp_contributed = 0 ∨
                standingsGet info.faction_standings info.winning_faction = 0
            · simp [hz] at h
            · simp only [hz, if_false] at h
              simp at h
              obtain ⟨-, hs₂⟩ := h
              subst hs₂
              refine ⟨by simp, ?_⟩
              unfold claim_epoch_reward require_not_paused
              simp only [set_claimed_paused, hp, if_false]
              unfold claim_epoch_reward_impl
              rw [set_claimed_epochs, hE]
              simp only [hfin, if_false]
              have hcl2 : has_claimed (set_claimed s p e) p e = true := by
                simp [has_claimed]
              rw [hcl2]
              simp
/-- Witness for C6: in sClaim, player 1 claims epoch 0 successfully
(payout 250 = 1000 x 10 / 40); the claim record is then set and the
repeated claim fails with RewardAlreadyClaimed. -/
theorem claim_once_witness :
    has_claimed (set_claimed sClaim 1 0) 1 0 = true ∧
    ((set_claimed sClaim 1 0).claimed 1 0 = some true ∧
      claim_epoch_reward (set_claimed sClaim 1 0) 1 0 =
        .error .RewardAlreadyClaimed) :=
  ⟨(claim_once sClaim 1 0).1,
   (claim_once sClaim 1 0).2.2.2 250 (set_claimed sClaim 1 0) rfl⟩

-- ===========================================================================
-- Run lemmas for the game session coordinator
-- ===========================================================================

/-- Materialization is a no-op for a player who already has an epoch
record with a locked faction: the lock is idempotent and no FP is
recomputed. -/
theorem materialize_existing (s : ContractState) (p : Nat) (pd : Player)
    (r : EpochPlayer) (f : Nat)
    (hp : s.players p = some pd)
    (hr : s.epochPlayers s.currentEpoch p = some r)
    (hf : r.epoch_faction = some f) :
    materialize_epoch_player s p = .ok s := by
  simp [materialize_epoch_player, lock_epoch_faction, hp, hr, hf]

/-- Concrete run of start_game when both players already have epoch
records with locked factions and sufficient available FP: both wagers
are deducted and a Pending session is stored. -/
theorem start_game_run (s : ContractState) (gid sid p1 p2 : Nat)
    (w1 w2 : Int) (pd1 pd2 : Player) (ep1 ep2 : EpochPlayer) (f1 f2 : Nat)
    (hpause : s.paused = false)
    (hg : s.games gid = true)
    (hsid : s.sessions sid = none)
    (hw1 : 0 < w1) (hw2 : 0 < w2)
    (hne : p1 ≠ p2)
    (hp1 : s.players p1 = some pd1) (hp2 : s.players p2 = some pd2)
    (he1 : s.epochPlayers s.currentEpoch p1 = some ep1)
    (he2 : s.epochPlayers s.currentEpoch p2 = some ep2)
    (hf1 : ep1.epoch_faction = some f1) (hf2 : ep2.epoch_faction = some f2)
    (ha1 : w1 ≤ ep1.available_fp) (ha2 : w2 ≤ ep2.available_fp) :
    start_game s gid sid p1 p2 w1 w2 =
      .ok (((s.withEpochPlayer s.currentEpoch p1
          { ep1 with available_fp := ep1.available_fp - w1 }).withEpochPlayer
          s.currentEpoch p2
          { ep2 with available_fp := ep2.available_fp - w2 }).withSession sid
          { game_id := gid, player1 := p1, player2 := p2,
            player1_wager := w1, player2_wager := w2,
            status := .Pending }) := by
  have hm1 : materialize_epoch_player s p1 = .ok s :=
    materialize_existing s p1 pd1 ep1 f1 hp1 he1 hf1
  have hm2 : materialize_epoch_player s p2 = .ok s :=
    materialize_existing s p2 pd2 ep2 f2 hp2 he2 hf2
  have hn1 : ¬(ep1.available_fp < w1) := not_lt.mpr ha1
  have hn2 : ¬(ep2.available_fp < w2) := not_lt.mpr ha2
  have hnw1 : ¬(w1 ≤ 0) := not_le.mpr hw1
  have hnw2 : ¬(w2 ≤ 0) := not_le.mpr hw2
  have hlook2 : (s.withEpochPlayer s.currentEpoch p1
      { ep1 with available_fp := ep1.available_fp - w1 }).epochPlayers
      s.currentEpoch p2 = some ep2 := by
    rw [withEpochPlayer_lookup_other_player s _ _ _ _ (Ne.symm hne)]
    exact he2
  simp [start_game, require_not_paused, hpause, start_game_impl, hg, hsid,
    hnw1, hnw2, hm1, hm2, he1, hn1, hlook2, hn2]

/-- Concrete run of end_game with outcome.winner = true (player1 wins):
player1 receives the whole pot into available_fp, their contribution and
the standings of their locked faction grow by player2's wager, and the
session is marked Settled. -/
theorem end_game_run₁ (s : ContractState) (gid sid p1 p2 : Nat)
    (w1 w2 : Int) (ep1 : EpochPlayer) (f1 : Nat) (info : EpochInfo)
    (proof : List Nat)
    (hsess : s.sessions sid = some
      { game_id := gid, player1 := p1, player2 := p2, player1_wager := w1,
        player2_wager := w2, status := .Pending })
    (he1 : s.epochPlayers s.currentEpoch p1 = some ep1)
    (hf1 : ep1.epoch_faction = some f1)
    (hei : s.epochs s.currentEpoch = some info) :
    end_game s gid sid proof
      { game_id := gid, session_id := sid, player1 := p1, player2 := p2,
        winner := true } =
      .ok (((s.withEpochPlayer s.currentEpoch p1
          { ep1 with available_fp := ep1.available_fp + (w1 + w2),
                     total_fp_contributed := ep1.total_fp_contributed + w2 }).withEpoch
          s.currentEpoch
          { info with faction_standings :=
              standingsAdd info.faction_standings f1 w2 }).withSession sid
          { game_id := gid, player1 := p1, player2 := p2,
            player1_wager := w1, player2_wager := w2,
            status := .Settled }) := by
  simp [end_game, end_game_impl, hsess, verify_proof, he1, hf1, hei]

/-- Concrete run of end_game with outcome.winner = false (player2 wins). -/
theorem end_game_run₂ (s : ContractState) (gid sid p1 p2 : Nat)
    (w1 w2 : Int) (ep2 : EpochPlayer) (f2 : Nat) (info : EpochInfo)
    (proof : List Nat)
    (hsess : s.sessions sid = some
      { game_id := gid, player1 := p1, player2 := p2, player1_wager := w1,
        player2_wager := w2, status := .Pending })
    (he2 : s.epochPlayers s.currentEpoch p2 = some ep2)
    (hf2 : ep2.epoch_faction = some f2)
    (hei : s.epochs s.currentEpoch = some info) :
    end_game s gid sid proof
      { game_id := gid, session_id := sid, player1 := p1, player2 := p2,
        winner := false } =
      .ok (((s.withEpochPlayer s.currentEpoch p2
          { ep2 with available_fp := ep2.available_fp + (w1 + w2),
                     total_fp_contributed := ep2.total_fp_contributed + w1 }).withEpoch
          s.currentEpoch
          { info with faction_standings :=
              standingsAdd info.faction_standings f2 w1 }).withSession sid
          { game_id := gid, player1 := p1, player2 := p2,
            player1_wager := w1, player2_wager := w2,
            status := .Settled }) := by
  simp [end_game, end_game_impl, hsess, verify_proof, he2, hf2, hei]

-- ===========================================================================
-- Claim C2 (wager conservation across a session)
-- ===========================================================================

/-- Claim C2: for a session started with wagers (w1, w2) and later
settled by end_game, start_game deducts exactly w1 from player1 and w2
from player2 (total FP removed w1 + w2); at settlement the winner's
available_fp receives back exactly w1 + w2, the loser receives 0 back,
and both the winner's total_fp_contributed and the epoch's
faction_standings entry for the winner's locked faction increase by
exactly the loser's wager, not the pot. Stated for both outcomes via the
boolean b (b = true means player1 won). -/
theorem wager_conservation (s : ContractState) (gid sid p1 p2 : Nat)
    (w1 w2 : Int) (pd1 pd2 : Player) (ep1 ep2 : EpochPlayer) (f1 f2 : Nat)
    (info : EpochInfo) (proof : List Nat) (b : Bool)
    (hpause : s.paused = false)
    (hg : s.games gid = true)
    (hsid : s.sessions sid = none)
    (hw1 : 0 < w1) (hw2 : 0 < w2)
    (hne : p1 ≠ p2)
    (hp1 : s.players p1 = some pd1) (hp2 : s.players p2 = some pd2)
    (he1 : s.epochPlayers s.currentEpoch p1 = some ep1)
    (he2 : s.epochPlayers s.currentEpoch p2 = some ep2)
    (hf1 : ep1.epoch_faction = some f1) (hf2 : ep2.epoch_faction = some f2)
    (ha1 : w1 ≤ ep1.available_fp) (ha2 : w2 ≤ ep2.available_fp)
    (hei : s.epochs s.currentEpoch = some info) :
    ∃ s₁, start_game s gid sid p1 p2 w1 w2 = .ok s₁ ∧
      availAt s₁ p1 = ep1.available_fp - w1 ∧
      availAt s₁ p2 = ep2.available_fp - w2 ∧
      availAt s₁ p1 + availAt s₁ p2 =
        availAt s p1 + availAt s p2 - (w1 + w2) ∧
      ∃ s₂, end_game s₁ gid sid proof
          { game_id := gid, session_id := sid, player1 := p1, player2 := p2,
            winner := b } = .ok s₂ ∧
        (b = true →
          availAt s₂ p1 = availAt s₁ p1 + (w1 + w2) ∧
          availAt s₂ p2 = availAt s₁ p2 ∧
          contribAt s₂ p1 = contribAt s₁ p1 + w2 ∧
          standingsAt s₂ f1 = standingsAt s₁ f1 + w2) ∧
        (b = false →
          availAt s₂ p2 = availAt s₁ p2 + (w1 + w2) ∧
          availAt s₂ p1 = availAt s₁ p1 ∧
          contribAt s₂ p2 = contribAt s₁ p2 + w1 ∧
          standingsAt s₂ f2 = standingsAt s₁ f2 + w1) := by
  have hstart := start_game_run s gid sid p1 p2 w1 w2 pd1 pd2 ep1 ep2 f1 f2
    hpause hg hsid hw1 hw2 hne hp1 hp2 he1 he2 hf1 hf2 ha1 ha2
  refine ⟨_, hstart, ?_, ?_, ?_, ?_⟩
  · simp [availAt, ContractState.withEpochPlayer, hne]
  · simp [availAt, ContractState.withEpochPlayer]
  · simp [availAt, ContractState.withEpochPlayer, hne, he1, he2]
    ring
  · have hS1e1 : (((s.withEpochPlayer s.currentEpoch p1
        { ep1 with available_fp := ep1.available_fp - w1 }).withEpochPlayer
        s.currentEpoch p2
        { ep2 with available_fp := ep2.available_fp - w2 }).withSession sid
        { game_id := gid, player1 := p1, player2 := p2,
          player1_wager := w1, player2_wager := w2,
          status := .Pending }).epochPlayers s.currentEpoch p1 =
        some { ep1 with available_fp := ep1.available_fp - w1 } := by
      simp [ContractState.withEpochPlayer, hne]
    have hS1e2 : (((s.withEpochPlayer s.currentEpoch p1
        { ep1 with available_fp := ep1.available_fp - w1 }).withEpochPlayer
        s.currentEpoch p2
        { ep2 with available_fp := ep2.available_fp - w2 }).withSession sid
        { game_id := gid, player1 := p1, player2 := p2,
          player1_wager := w1, player2_wager := w2,
          status := .Pending }).epochPlayers s.currentEpoch p2 =
        some { ep2 with available_fp := ep2.available_fp - w2 } := by
      simp [ContractState.withEpochPlayer]
    cases b with
    | true =>
      have hend := end_game_run₁ _ gid sid p1 p2 w1 w2
        { ep1 with available_fp := ep1.available_fp - w1 } f1 info proof
        (withSession_lookup_same _ sid _) hS1e1 hf1 hei
      refine ⟨_, hend, fun _ => ⟨?_, ?_, ?_, ?_⟩, fun hcontra => by simp at hcontra⟩
      · simp [availAt, ContractState.withEpochPlayer, hne, Ne.symm hne]
      · simp [availAt, ContractState.withEpochPlayer, hne, Ne.symm hne]
      · simp [contribAt, ContractState.withEpochPlayer, hne, Ne.symm hne]
      · simp [standingsAt, ContractState.withEpoch, hei,
          standingsGet_standingsAdd_same]
    | false =>
      have hend := end_game_run₂ _ gid sid p1 p2 w1 w2
        { ep2 with available_fp := ep2.available_fp - w2 } f2 info proof
        (withSession_lookup_same _ sid _) hS1e2 hf2 hei
      refine ⟨_, hend, fun hcontra => by simp at hcontra, fun _ => ⟨?_, ?_, ?_, ?_⟩⟩
      · simp [availAt, ContractState.withEpochPlayer, hne, Ne.symm hne]
      · simp [availAt, ContractState.withEpochPlayer, hne, Ne.symm hne]
      · simp [contribAt, ContractState.withEpochPlayer, hne, Ne.symm hne]
      · simp [standingsAt, ContractState.withEpoch, hei,
          standingsGet_standingsAdd_same]

/-- Two players (1 in faction 0 with 500 FP, 2 in faction 1 with 300 FP)
with locked epoch records, game contract 10 whitelisted, epoch 0 open. -/
def sGame : ContractState where
  paused := false
  currentEpoch := 0
  now := 0
  players := fun q =>
    if q = 1 then some { selected_faction := 0, time_multiplier_start := 0,
                         last_epoch_balance := 0 }
    else if q = 2 then some { selected_faction := 1, time_multiplier_start := 0,
                              last_epoch_balance := 0 }
    else none
  epochPlayers := fun e p =>
    if e = 0 ∧ p = 1 then
      some { epoch_faction := some 0, epoch_balance_snapshot := 0,
             available_fp := 500, total_fp_contributed := 0 }
    else if e = 0 ∧ p = 2 then
      some { epoch_faction := some 1, epoch_balance_snapshot := 0,
             available_fp := 300, total_fp_contributed := 0 }
    else none
  epochs := fun e =>
    if e = 0 then
      some { epoch_number := 0, start_time := 0, end_time := 100,
             is_finalized := false, winning_faction := 0,
             faction_standings := [], reward_pool := 0 }
    else none
  sessions := fun _ => none
  games := fun g => g == 10
  claimed := fun _ _ => none
  vaultBalance := fun _ => 0

/-- Witness for C2: session 5 with wagers (100, 50) between players 1
and 2 in sGame; player 1 wins. 150 FP leave at start (400 and 250
remain), the winner receives 150 back, the loser 0, and the winner's
contribution and faction-0 standings grow by exactly 50 (the loser's
wager). -/
theorem wager_conservation_witness :
    ∃ s₁, start_game sGame 10 5 1 2 100 50 = .ok s₁ ∧
      availAt s₁ 1 = 400 ∧
      availAt s₁ 2 = 250 ∧
      availAt s₁ 1 + availAt s₁ 2 = availAt sGame 1 + availAt sGame 2 - 150 ∧
      ∃ s₂, end_game s₁ 10 5 []
          { game_id := 10, session_id := 5, player1 := 1, player2 := 2,
            winner := true } = .ok s₂ ∧
        (true = true →
          availAt s₂ 1 = availAt s₁ 1 + 150 ∧
          availAt s₂ 2 = availAt s₁ 2 ∧
          contribAt s₂ 1 = contribAt s₁ 1 + 50 ∧
          standingsAt s₂ 0 = standingsAt s₁ 0 + 50) ∧
        (true = false →
          availAt s₂ 2 = availAt s₁ 2 + 150 ∧
          availAt s₂ 1 = availAt s₁ 1 ∧
          contribAt s₂ 2 = contribAt s₁ 2 + 100 ∧
          standingsAt s₂ 1 = standingsAt s₁ 1 + 100) :=
  wager_conservation sGame 10 5 1 2 100 50
    { selected_faction := 0, time_multiplier_start := 0,
      last_epoch_balance := 0 }
    { selected_faction := 1, time_multiplier_start := 0,
      last_epoch_balance := 0 }
    { epoch_faction := some 0, epoch_balance_snapshot := 0,
      available_fp := 500, total_fp_contributed := 0 }
    { epoch_faction := some 1, epoch_balance_snapshot := 0,
      available_fp := 300, total_fp_contributed := 0 }
    0 1
    { epoch_number := 0, start_time := 0, end_time := 100,
      is_finalized := false, winning_faction := 0,
      faction_standings := [], reward_pool := 0 }
    [] true rfl rfl rfl (by decide) (by decide) (by decide) rfl rfl rfl rfl
    rfl rfl (by decide) (by decide) rfl

-- ===========================================================================
-- Claim C9 (pause asymmetry at the public interface)
-- ===========================================================================

/-- Claim C9: when the pause flag is set, start_game and
claim_epoch_reward fail with ContractPaused before touching any state
(the error aborts the whole invocation, so nothing is committed), but
end_game performs no pause check: a pending session can still be settled
while paused - the winner's available_fp and total_fp_contributed and
the faction standings are mutated and the session is marked Settled,
with the contract still paused. -/
theorem pause_asymmetry (s : ContractState) (gid sid p1 p2 pl eNum : Nat)
    (w1 w2 : Int) (ep1 : EpochPlayer) (f1 : Nat) (info : EpochInfo)
    (proof : List Nat)
    (hpause : s.paused = true)
    (hsess : s.sessions sid = some
      { game_id := gid, player1 := p1, player2 := p2, player1_wager := w1,
        player2_wager := w2, status := .Pending })
    (he1 : s.epochPlayers s.currentEpoch p1 = some ep1)
    (hf1 : ep1.epoch_faction = some f1)
    (hei : s.epochs s.currentEpoch = some info) :
    start_game s gid sid p1 p2 w1 w2 = .error .ContractPaused ∧
    claim_epoch_reward s pl eNum = .error .ContractPaused ∧
    ∃ s₂, end_game s gid sid proof
        { game_id := gid, session_id := sid, player1 := p1, player2 := p2,
          winner := true } = .ok s₂ ∧
      s₂.paused = true ∧
      availAt s₂ p1 = availAt s p1 + (w1 + w2) ∧
      contribAt s₂ p1 = contribAt s p1 + w2 ∧
      standingsAt s₂ f1 = standingsAt s f1 + w2 ∧
      s₂.sessions sid = some
        { game_id := gid, player1 := p1, player2 := p2, player1_wager := w1,
          player2_wager := w2, status := .Settled } := by
  refine ⟨by simp [start_game, require_not_paused, hpause],
    by simp [claim_epoch_reward, require_not_paused, hpause], ?_⟩
  have hend := end_game_run₁ s gid sid p1 p2 w1 w2 ep1 f1 info proof
    hsess he1 hf1 hei
  refine ⟨_, hend, by simp [hpause], ?_, ?_, ?_, ?_⟩
  · simp [availAt, ContractState.withEpochPlayer, he1]
  · simp [contribAt, ContractState.withEpochPlayer, he1]
  · simp [standingsAt, ContractState.withEpoch, hei,
      standingsGet_standingsAdd_same]
  · simp

/-- Paused contract with a pending session 5 (wagers 30 and 40) between
players 1 (locked faction 2, 50 available FP) and 2. -/
def sPausedGame : ContractState where
  paused := true
  currentEpoch := 0
  now := 0
  players := fun _ => none
  epochPlayers := fun e p =>
    if e = 0 ∧ p = 1 then
      some { epoch_faction := some 2, epoch_balance_snapshot := 0,
             available_fp := 50, total_fp_contributed := 0 }
    else if e = 0 ∧ p = 2 then
      some { epoch_faction := some 1, epoch_balance_snapshot := 0,
             available_fp := 60, total_fp_contributed := 0 }
    else none
  epochs := fun e =>
    if e = 0 then
      some { epoch_number := 0, start_time := 0, end_time := 100,
             is_finalized := false, winning_faction := 0,
             faction_standings := [], reward_pool := 0 }
    else none
  sessions := fun i =>
    if i = 5 then
      some { game_id := 10, player1 := 1, player2 := 2, player1_wager := 30,
             player2_wager := 40, status := .Pending }
    else none
  games := fun g => g == 10
  claimed := fun _ _ => none
  vaultBalance := fun _ => 0

/-- Witness for C9: in the paused state sPausedGame, start_game and
claim_epoch_reward are rejected with ContractPaused while end_game
settles pending session 5 - player 1 gains the 70 FP pot, contribution
and faction-2 standings grow by 40, the session becomes Settled, and the
contract is still paused throughout. -/
theorem pause_asymmetry_witness :
    start_game sPausedGame 10 5 1 2 30 40 = .error .ContractPaused ∧
    claim_epoch_reward sPausedGame 7 3 = .error .ContractPaused ∧
    ∃ s₂, end_game sPausedGame 10 5 []
        { game_id := 10, session_id := 5, player1 := 1, player2 := 2,
          winner := true } = .ok s₂ ∧
      s₂.paused = true ∧
      availAt s₂ 1 = availAt sPausedGame 1 + 70 ∧
      contribAt s₂ 1 = contribAt sPausedGame 1 + 40 ∧
      standingsAt s₂ 2 = standingsAt sPausedGame 2 + 40 ∧
      s₂.sessions 5 = some
        { game_id := 10, player1 := 1, player2 := 2, player1_wager := 30,
          player2_wager := 40, status := .Settled } :=
  pause_asymmetry sPausedGame 10 5 1 2 7 3 30 40
    { epoch_faction := some 2, epoch_balance_snapshot := 0,
      available_fp := 50, total_fp_contributed := 0 }
    2
    { epoch_number := 0, start_time := 0, end_time := 100,
      is_finalized := false, winning_faction := 0,
      faction_standings := [], reward_pool := 0 }
    [] rfl rfl rfl rfl rfl
